import Mathlib

/-!
# Verification of the `amaze` AMF franking library

Shallow embedding of the Rust sources (`src/pok/*.rs`, `src/amf/*.rs`) of an
Asymmetric Message Franking implementation over the Ristretto255 group.

Modelling choices:

* The Ristretto255 group is a cyclic group of prime order `q`; we represent a
  group element by its discrete logarithm with respect to the base point `g`
  (type `Pt`, a one-field structure over `ZMod q`).  Scalars are `ZMod q`.
  `k * P` on points becomes multiplication of logarithms, point addition
  becomes addition of logarithms, and the base point has logarithm `1`.
* Randomness drawn inside the Rust functions (`Scalar::random`,
  per-verifier secrets, simulated challenges and responses) is passed in
  explicitly as arguments.
* SHA-512 and Ristretto point compression are external library primitives;
  they enter the embedding as function parameters (`sha512`, `compress`,
  `decompress`).  Only the byte streams fed to them are modelled here.
* Stateful Rust provers (which store the witness and per-verifier secret
  between `generate_commitment` and `generate_response_to_challenge`) become
  explicit state passing: `commit` returns the commitment together with the
  stored state and `respond` consumes that state.
-/

set_option maxHeartbeats 1000000

namespace Amaze

/-- Order of the Ristretto255 group (the prime ℓ of curve25519). -/
def q : ℕ := 2 ^ 252 + 27742317777372353535851937790883648493

/-- Scalar field 𝔽q (`curve25519_dalek::scalar::Scalar`). -/
abbrev Zq := ZMod q

/-- A Ristretto255 group element, represented by its discrete logarithm with
respect to the base point (`curve25519_dalek::ristretto::RistrettoPoint`). -/
structure Pt where
  log : Zq
deriving DecidableEq

/-- Scalar multiplication `k * P` of a point. -/
def smul (k : Zq) (P : Pt) : Pt := ⟨k * P.log⟩

/-- Point addition `P + Q`. -/
def padd (P Q : Pt) : Pt := ⟨P.log + Q.log⟩

/-- Point subtraction `P - Q`. -/
def psub (P Q : Pt) : Pt := ⟨P.log - Q.log⟩

/-- The Ristretto base point `g` (`RISTRETTO_BASEPOINT_TABLE.basepoint()`). -/
def gPt : Pt := ⟨1⟩

instance : Inhabited Pt := ⟨⟨0⟩⟩

/-- `AMFRole` from `src/amf/franking.rs`. -/
inductive AMFRole where
  | Sender
  | Recipient
  | Judge
deriving DecidableEq

/-- `AMFPublicKey` from `src/amf/franking.rs`. -/
structure AMFPublicKey where
  role : AMFRole
  public_key : Pt
deriving DecidableEq

/-- `AMFSecretKey` from `src/amf/franking.rs`. -/
structure AMFSecretKey where
  role : AMFRole
  secret_key : Zq
deriving DecidableEq

/-- `keygen` from `src/amf/franking.rs`; the randomly drawn scalar
(`Scalar::random(&mut rng)`) is the explicit argument `sk`. -/
def keygen (role : AMFRole) (sk : Zq) : AMFPublicKey × AMFSecretKey :=
  let g := gPt
  let secret_key := sk
  let public_key := smul secret_key g
  (⟨role, public_key⟩, ⟨role, secret_key⟩)

/-!
## Atomic Σ-protocols (`src/pok/schnorr.rs`, `src/pok/chaum_pedersen.rs`)

A child protocol is packaged as a record of the four operations the OR/AND
combinators use (`generate_commitment`, `generate_response_to_challenge`,
`verify_response_to_challenge`, `simulate_prover_responses`), mirroring the
Rust `SigmaProver`/`SigmaVerifier` trait objects.  `commit` takes the
per-verifier secret (drawn by `Scalar::random` in the source) and the witness,
and returns the commitment together with the stored prover state
`(witness, per_verifier_secret)`; `simulate` takes the randomly drawn
simulated response and the challenge. -/
structure SigmaChild (W C S R : Type) where
  commit : Zq → W → C × S
  respond : S → Zq → R
  check : C → Zq → R → Bool
  simulate : Zq → Zq → C × R

/-- Schnorr protocol for the statement `u = witness * g`
(`src/pok/schnorr.rs`). -/
def schnorrChild (u : Pt) : SigmaChild Zq Pt (Zq × Zq) Zq where
  commit := fun per_verifier_secret witness =>
    (smul per_verifier_secret gPt, (witness, per_verifier_secret))
  respond := fun st c => st.2 + st.1 * c
  check := fun t c z => decide (smul z gPt = padd t (smul c u))
  simulate := fun z c => (psub (smul z gPt) (smul c u), z)

/-- `ChaumPedersenWitnessStatement` from `src/pok/chaum_pedersen.rs`. -/
structure ChaumPedersenWitnessStatement where
  u : Pt
  v : Pt
  w : Pt
deriving DecidableEq

/-- `ChaumPedersenProverCommitment` from `src/pok/chaum_pedersen.rs`. -/
structure ChaumPedersenProverCommitment where
  v_t : Pt
  w_t : Pt
deriving DecidableEq

instance : Inhabited ChaumPedersenProverCommitment := ⟨⟨default, default⟩⟩

/-- Chaum–Pedersen protocol for the DDH statement
`v = witness * g ∧ w = witness * u` (`src/pok/chaum_pedersen.rs`). -/
def cpChild (stmt : ChaumPedersenWitnessStatement) :
    SigmaChild Zq ChaumPedersenProverCommitment (Zq × Zq) Zq where
  commit := fun per_verifier_secret witness =>
    (⟨smul per_verifier_secret gPt, smul per_verifier_secret stmt.u⟩,
      (witness, per_verifier_secret))
  respond := fun st c => st.2 + st.1 * c
  check := fun t c z =>
    decide (smul z gPt = padd t.v_t (smul c stmt.v)) &&
      decide (smul z stmt.u = padd t.w_t (smul c stmt.w))
  simulate := fun z c =>
    (⟨psub (smul z gPt) (smul c stmt.v), psub (smul z stmt.u) (smul c stmt.w)⟩, z)

/-!
## OR combinator (`src/pok/or_proof.rs`)
-/

/-- `OrWitness` from `src/pok/or_proof.rs`. -/
structure OrWitness (W0 W1 : Type) where
  b : Bool
  s0_witness : Option W0
  s1_witness : Option W1

/-- `OrProverResponse` from `src/pok/or_proof.rs`. -/
structure OrProverResponse (R0 R1 : Type) where
  c_0 : Zq
  z_0 : R0
  z_1 : R1
deriving DecidableEq

/-- `OrPerVerifierSecret` from `src/pok/or_proof.rs`. -/
structure OrPerVerifierSecret (R0 R1 : Type) where
  s0_challenge : Option Zq
  s1_challenge : Option Zq
  s0_prover_response : Option R0
  s1_prover_response : Option R1

/-- The OR prover's retained state between `generate_commitment` and
`generate_response_to_challenge`: the stored witness, the
`OrPerVerifierSecret`, and the states of the two child provers. -/
structure OrProverState (W0 W1 S0 S1 R0 R1 : Type) where
  witness : OrWitness W0 W1
  pvs : OrPerVerifierSecret R0 R1
  s0_state : Option S0
  s1_state : Option S1

/-- Randomness consumed by `OrProver::generate_commitment`: the real branch's
child commit randomness, the simulated branch's random local challenge
(`generate_random_challenge`), and the simulated branch's simulator
randomness. -/
structure OrCommitRnd where
  r_commit : Zq
  r_chal : Zq
  r_sim : Zq

/-- `OrProver::generate_commitment` from `src/pok/or_proof.rs`.
The source unwraps `Option` fields that are always `Some` on the honest
path; `Option.getD default` stands in for `unwrap` (the Rust bounds already
require `Default` on the response types). -/
def orGenerateCommitment {W0 C0 S0 R0 W1 C1 S1 R1 : Type}
    [Inhabited W0] [Inhabited W1]
    (ch0 : SigmaChild W0 C0 S0 R0) (ch1 : SigmaChild W1 C1 S1 R1)
    (rnd : OrCommitRnd) (witness : OrWitness W0 W1) :
    (C0 × C1) × OrProverState W0 W1 S0 S1 R0 R1 :=
  if !witness.b then
    let s0c := ch0.commit rnd.r_commit (witness.s0_witness.getD default)
    let s1_challenge := rnd.r_chal
    let s1sim := ch1.simulate rnd.r_sim s1_challenge
    ((s0c.1, s1sim.1),
      ⟨witness, ⟨none, some s1_challenge, none, some s1sim.2⟩, some s0c.2, none⟩)
  else
    let s0_challenge := rnd.r_chal
    let s0sim := ch0.simulate rnd.r_sim s0_challenge
    let s1c := ch1.commit rnd.r_commit (witness.s1_witness.getD default)
    ((s0sim.1, s1c.1),
      ⟨witness, ⟨some s0_challenge, none, some s0sim.2, none⟩, none, some s1c.2⟩)

/-- `OrProver::generate_response_to_challenge` from `src/pok/or_proof.rs`. -/
def orGenerateResponseToChallenge {W0 C0 S0 R0 W1 C1 S1 R1 : Type}
    [Inhabited S0] [Inhabited S1] [Inhabited R0] [Inhabited R1]
    (ch0 : SigmaChild W0 C0 S0 R0) (ch1 : SigmaChild W1 C1 S1 R1)
    (st : OrProverState W0 W1 S0 S1 R0 R1) (random_challenge : Zq) :
    OrProverResponse R0 R1 :=
  if !st.witness.b then
    let c_0 := (st.pvs.s1_challenge.getD 0) - random_challenge
    let z_0 := ch0.respond (st.s0_state.getD default) c_0
    ⟨c_0, z_0, st.pvs.s1_prover_response.getD default⟩
  else
    let c_1 := (st.pvs.s0_challenge.getD 0) + random_challenge
    let z_1 := ch1.respond (st.s1_state.getD default) c_1
    ⟨st.pvs.s0_challenge.getD 0, st.pvs.s0_prover_response.getD default, z_1⟩

/-- `OrVerifier::verify_response_to_challenge` from `src/pok/or_proof.rs`:
the second branch's local challenge is reconstructed as
`c_1 = c_0 + random_challenge`. -/
def orVerifyResponseToChallenge {W0 C0 S0 R0 W1 C1 S1 R1 : Type}
    (ch0 : SigmaChild W0 C0 S0 R0) (ch1 : SigmaChild W1 C1 S1 R1)
    (prover_commitment : C0 × C1) (random_challenge : Zq)
    (resp : OrProverResponse R0 R1) : Bool :=
  let c_1 := resp.c_0 + random_challenge
  ch0.check prover_commitment.1 resp.c_0 resp.z_0 &&
    ch1.check prover_commitment.2 c_1 resp.z_1

/-- `OrVerifier::simulate_prover_responses` from `src/pok/or_proof.rs`;
`rnd_c0` is the randomly drawn `c_0`, `rnd0`/`rnd1` the child simulators'
randomness. -/
def orSimulateProverResponses {W0 C0 S0 R0 W1 C1 S1 R1 : Type}
    (ch0 : SigmaChild W0 C0 S0 R0) (ch1 : SigmaChild W1 C1 S1 R1)
    (rnd_c0 rnd0 rnd1 : Zq) (random_challenge : Zq) :
    (C0 × C1) × OrProverResponse R0 R1 :=
  let c_0 := rnd_c0
  let c_1 := c_0 + random_challenge
  let s0 := ch0.simulate rnd0 c_0
  let s1 := ch1.simulate rnd1 c_1
  ((s0.1, s1.1), ⟨c_0, s0.2, s1.2⟩)

/-!
## AND combinator (`src/pok/and_proof.rs`)
-/

/-- `AndProver::generate_commitment` from `src/pok/and_proof.rs`: commit both
children, returning the paired commitments and the paired prover states. -/
def andGenerateCommitment {N0 W0 C0 S0 N1 W1 C1 S1 : Type}
    (commit0 : N0 → W0 → C0 × S0) (commit1 : N1 → W1 → C1 × S1)
    (rnd : N0 × N1) (witness : W0 × W1) : (C0 × C1) × (S0 × S1) :=
  let s0 := commit0 rnd.1 witness.1
  let s1 := commit1 rnd.2 witness.2
  ((s0.1, s1.1), (s0.2, s1.2))

/-- `AndProver::generate_response_to_challenge` from `src/pok/and_proof.rs`:
both children answer the same challenge. -/
def andGenerateResponseToChallenge {S0 R0 S1 R1 : Type}
    (respond0 : S0 → Zq → R0) (respond1 : S1 → Zq → R1)
    (st : S0 × S1) (random_challenge : Zq) : R0 × R1 :=
  (respond0 st.1 random_challenge, respond1 st.2 random_challenge)

/-- `AndVerifier::verify_response_to_challenge` from `src/pok/and_proof.rs`. -/
def andVerifyResponseToChallenge {C0 R0 C1 R1 : Type}
    (check0 : C0 → Zq → R0 → Bool) (check1 : C1 → Zq → R1 → Bool)
    (prover_commitment : C0 × C1) (random_challenge : Zq)
    (resp : R0 × R1) : Bool :=
  check0 prover_commitment.1 random_challenge resp.1 &&
    check1 prover_commitment.2 random_challenge resp.2

/-- `AndVerifier::simulate_prover_responses` from `src/pok/and_proof.rs`. -/
def andSimulateProverResponses {N0 C0 R0 N1 C1 R1 : Type}
    (sim0 : N0 → Zq → C0 × R0) (sim1 : N1 → Zq → C1 × R1)
    (rnd : N0 × N1) (random_challenge : Zq) : (C0 × C1) × (R0 × R1) :=
  let s0 := sim0 rnd.1 random_challenge
  let s1 := sim1 rnd.2 random_challenge
  ((s0.1, s1.1), (s0.2, s1.2))

/-!
## Commitment serialization

`serialize_commitment` of each prover: Schnorr emits the compressed point,
Chaum–Pedersen the two compressed points `v_t ‖ w_t`, and the OR and AND
combinators concatenate their children's serializations.  Ristretto point
compression is the external `compress().as_bytes()`; it enters as the
function parameter `compress`. -/
def schnorrSerializeCommitment (compress : Pt → List ℕ) (t : Pt) : List ℕ :=
  compress t

/-- `ChaumPedersenProver::serialize_commitment`. -/
def cpSerializeCommitment (compress : Pt → List ℕ)
    (t : ChaumPedersenProverCommitment) : List ℕ :=
  compress t.v_t ++ compress t.w_t

/-- `OrProver::serialize_commitment` / `AndProver::serialize_commitment`:
concatenation of the children's serializations. -/
def pairSerializeCommitment {C0 C1 : Type}
    (ser0 : C0 → List ℕ) (ser1 : C1 → List ℕ) (t : C0 × C1) : List ℕ :=
  ser0 t.1 ++ ser1 t.2

/-!
## Fiat–Shamir transform (`src/pok/fiat_shamir.rs`)

`sha512 : List ℕ → ℕ` models the external SHA-512 digest, read as a number;
`Scalar::from_hash` is the reduction of that number modulo `q`, i.e. the cast
into `Zq`.  The three `hasher.update` calls hash the concatenation
`message ‖ b"||" ‖ serialized_commitment` (the ASCII code of `|` is 124). -/
def hashMessageAndCommitmentToScalar {C : Type} (sha512 : List ℕ → ℕ)
    (serialize : C → List ℕ) (message : List ℕ) (prover_commitment : C) : Zq :=
  ((sha512 (message ++ [124, 124] ++ serialize prover_commitment) : ℕ) : Zq)

/-- `FiatShamirSignature` from `src/pok/fiat_shamir.rs`. -/
structure FiatShamirSignature (C R : Type) where
  prover_commitment : C
  prover_response : R
deriving DecidableEq

/-- `SignatureScheme::sign` for `FiatShamir` from `src/pok/fiat_shamir.rs`. -/
def fsSign {N W C S R : Type} (commit : N → W → C × S) (respond : S → Zq → R)
    (serialize : C → List ℕ) (sha512 : List ℕ → ℕ)
    (rnd : N) (witness : W) (message : List ℕ) : FiatShamirSignature C R :=
  let pc := commit rnd witness
  let simulated_challenge :=
    hashMessageAndCommitmentToScalar sha512 serialize message pc.1
  ⟨pc.1, respond pc.2 simulated_challenge⟩

/-- `SignatureScheme::verify` for `FiatShamir` from `src/pok/fiat_shamir.rs`. -/
def fsVerify {C R : Type} (check : C → Zq → R → Bool)
    (serialize : C → List ℕ) (sha512 : List ℕ → ℕ)
    (message : List ℕ) (signature : FiatShamirSignature C R) : Bool :=
  let simulated_challenge := hashMessageAndCommitmentToScalar sha512 serialize
    message signature.prover_commitment
  check signature.prover_commitment simulated_challenge signature.prover_response

/-!
## AMF SPoK wiring (`src/amf/spok_amf.rs`)

`AMFSPoK::new(pk_S, pk_J, J, R, E_J)` builds
`FiatShamir(And(Or(Schnorr(pk_S), Schnorr(J)), Or(CP(pk_J, E_J, J), Schnorr(R))))`.
-/

/-- Commitment type of the AMF SPoK tree (cf. `AMFInternalSignature` in
`src/amf/franking.rs`). -/
abbrev AMFCommitment := (Pt × Pt) × (ChaumPedersenProverCommitment × Pt)

/-- Response type of the AMF SPoK tree. -/
abbrev AMFResponse := OrProverResponse Zq Zq × OrProverResponse Zq Zq

/-- `AMFInternalSignature` (π) from `src/amf/franking.rs`. -/
abbrev AMFInternalSignature := FiatShamirSignature AMFCommitment AMFResponse

/-- Prover state of the AMF SPoK tree. -/
abbrev AMFSPoKState :=
  OrProverState Zq Zq (Zq × Zq) (Zq × Zq) Zq Zq ×
    OrProverState Zq Zq (Zq × Zq) (Zq × Zq) Zq Zq

/-- Witness of the AMF SPoK tree. -/
abbrev AMFWitness := OrWitness Zq Zq × OrWitness Zq Zq

/-- The statement parameters of `AMFSPoK::new`. -/
structure AMFStatement where
  sender_public_key : Pt
  judge_public_key : Pt
  J : Pt
  R : Pt
  E_J : Pt

/-- The Chaum–Pedersen statement `{u: judge_public_key, v: E_J, w: J}`
built in `AMFSPoK::new`. -/
def amfCpStatement (s : AMFStatement) : ChaumPedersenWitnessStatement :=
  ⟨s.judge_public_key, s.E_J, s.J⟩

/-- The composed prover's `generate_commitment` for the AMF tree. -/
def amfGenerateCommitment (s : AMFStatement)
    (rnd : OrCommitRnd × OrCommitRnd) (witness : AMFWitness) :
    AMFCommitment × AMFSPoKState :=
  andGenerateCommitment
    (orGenerateCommitment (schnorrChild s.sender_public_key) (schnorrChild s.J))
    (orGenerateCommitment (cpChild (amfCpStatement s)) (schnorrChild s.R))
    rnd witness

/-- The composed prover's `generate_response_to_challenge` for the AMF tree. -/
def amfGenerateResponseToChallenge (s : AMFStatement)
    (st : AMFSPoKState) (random_challenge : Zq) : AMFResponse :=
  andGenerateResponseToChallenge
    (orGenerateResponseToChallenge (schnorrChild s.sender_public_key)
      (schnorrChild s.J))
    (orGenerateResponseToChallenge (cpChild (amfCpStatement s))
      (schnorrChild s.R))
    st random_challenge

/-- The composed verifier's `verify_response_to_challenge` for the AMF tree. -/
def amfVerifyResponseToChallenge (s : AMFStatement)
    (prover_commitment : AMFCommitment) (random_challenge : Zq)
    (resp : AMFResponse) : Bool :=
  andVerifyResponseToChallenge
    (orVerifyResponseToChallenge (schnorrChild s.sender_public_key)
      (schnorrChild s.J))
    (orVerifyResponseToChallenge (cpChild (amfCpStatement s))
      (schnorrChild s.R))
    prover_commitment random_challenge resp

/-- The composed verifier's `simulate_prover_responses` for the AMF tree:
`AndVerifier::simulate_prover_responses` over the two OR verifiers, each OR
consuming its random `c_0` and its two child simulators' randomness. -/
def amfSimulateProverResponses (s : AMFStatement)
    (rnd : (Zq × Zq × Zq) × (Zq × Zq × Zq)) (random_challenge : Zq) :
    AMFCommitment × AMFResponse :=
  andSimulateProverResponses
    (fun r c => orSimulateProverResponses (schnorrChild s.sender_public_key)
      (schnorrChild s.J) r.1 r.2.1 r.2.2 c)
    (fun (r : Zq × Zq × Zq) c =>
      orSimulateProverResponses (cpChild (amfCpStatement s))
        (schnorrChild s.R) r.1 r.2.1 r.2.2 c)
    rnd random_challenge

/-- The composed prover's `serialize_commitment` for the AMF tree. -/
def amfSerializeCommitment (compress : Pt → List ℕ) (t : AMFCommitment) :
    List ℕ :=
  pairSerializeCommitment
    (pairSerializeCommitment (schnorrSerializeCommitment compress)
      (schnorrSerializeCommitment compress))
    (pairSerializeCommitment (cpSerializeCommitment compress)
      (schnorrSerializeCommitment compress))
    t

/-- `AMFSPoK`'s `sign` (Fiat–Shamir over the AMF tree). -/
def amfSPoKSign (compress : Pt → List ℕ) (sha512 : List ℕ → ℕ)
    (s : AMFStatement) (rnd : OrCommitRnd × OrCommitRnd)
    (witness : AMFWitness) (message : List ℕ) : AMFInternalSignature :=
  fsSign (amfGenerateCommitment s) (amfGenerateResponseToChallenge s)
    (amfSerializeCommitment compress) sha512 rnd witness message

/-- `AMFSPoK`'s `verify` (Fiat–Shamir over the AMF tree). -/
def amfSPoKVerify (compress : Pt → List ℕ) (sha512 : List ℕ → ℕ)
    (s : AMFStatement) (message : List ℕ) (signature : AMFInternalSignature) :
    Bool :=
  fsVerify (amfVerifyResponseToChallenge s)
    (amfSerializeCommitment compress) sha512 message signature

/-!
## AMF franking API (`src/amf/franking.rs`)
-/

/-- `AMFSignature` (σ) from `src/amf/franking.rs`. -/
structure AMFSignature where
  pi : AMFInternalSignature
  J : Pt
  R : Pt
  E_J : Pt
  E_R : Pt
deriving DecidableEq

/-- `frank` from `src/amf/franking.rs`; the random scalars α, β and the SPoK
prover's randomness are explicit arguments. -/
def frank (compress : Pt → List ℕ) (sha512 : List ℕ → ℕ)
    (sender_secret_key : AMFSecretKey) (sender_public_key : AMFPublicKey)
    (recipient_public_key : AMFPublicKey) (judge_public_key : AMFPublicKey)
    (alpha beta : Zq) (rnd : OrCommitRnd × OrCommitRnd)
    (message : List ℕ) : AMFSignature :=
  let g := gPt
  let J := smul alpha judge_public_key.public_key
  let R := smul beta recipient_public_key.public_key
  let E_J := smul alpha g
  let E_R := smul beta g
  let pi := amfSPoKSign compress sha512
    ⟨sender_public_key.public_key, judge_public_key.public_key, J, R, E_J⟩
    rnd
    (⟨false, some sender_secret_key.secret_key, none⟩, ⟨false, some alpha, none⟩)
    message
  ⟨pi, J, R, E_J, E_R⟩

/-- `verify` from `src/amf/franking.rs`. -/
def verify (compress : Pt → List ℕ) (sha512 : List ℕ → ℕ)
    (recipient_secret_key : AMFSecretKey) (sender_public_key : AMFPublicKey)
    (_recipient_public_key : AMFPublicKey) (judge_public_key : AMFPublicKey)
    (message : List ℕ) (amf_signature : AMFSignature) : Bool :=
  let b1 := decide
    (amf_signature.R = smul recipient_secret_key.secret_key amf_signature.E_R)
  let b2 := amfSPoKVerify compress sha512
    ⟨sender_public_key.public_key, judge_public_key.public_key,
      amf_signature.J, amf_signature.R, amf_signature.E_J⟩
    message amf_signature.pi
  b1 && b2

/-- `judge` from `src/amf/franking.rs`. -/
def judge (compress : Pt → List ℕ) (sha512 : List ℕ → ℕ)
    (judge_secret_key : AMFSecretKey) (sender_public_key : AMFPublicKey)
    (_recipient_public_key : AMFPublicKey) (judge_public_key : AMFPublicKey)
    (message : List ℕ) (amf_signature : AMFSignature) : Bool :=
  let b1 := decide
    (amf_signature.J = smul judge_secret_key.secret_key amf_signature.E_J)
  let b2 := amfSPoKVerify compress sha512
    ⟨sender_public_key.public_key, judge_public_key.public_key,
      amf_signature.J, amf_signature.R, amf_signature.E_J⟩
    message amf_signature.pi
  b1 && b2

/-!
## Codec (`src/amf/codec.rs`)

Ristretto point compression/decompression is external
(`compress().as_bytes()` / `CompressedRistretto::decompress()`); it enters
as the parameters `compress` and `decompress` (decompression fails on
malformed encodings, hence `Option`).  A scalar's canonical little-endian
encoding (`Scalar::as_bytes`) and the decoder
(`Scalar::from_bytes_mod_order`, wide reduction of the little-endian value
modulo `q`) are modelled on byte lists via base-256 digits. -/

/-- The number a little-endian byte string denotes. -/
def natFromLeBytes (bytes : List ℕ) : ℕ := Nat.ofDigits 256 bytes

/-- Canonical 32-byte little-endian encoding of a number below `2^256`
(`Scalar::as_bytes` for a reduced scalar). -/
def leBytesOfNat32 (n : ℕ) : List ℕ :=
  Nat.digits 256 n ++ List.replicate (32 - (Nat.digits 256 n).length) 0

/-- `Scalar::from_bytes_mod_order`: interpret the bytes little-endian and
reduce modulo the group order (the cast into `Zq`); no error is possible. -/
def scalarFromBytesModOrder (bytes : List ℕ) : Zq :=
  ((natFromLeBytes bytes : ℕ) : Zq)

/-- `SerializableRistrettoScalar` from `src/amf/codec.rs`. -/
structure SerializableRistrettoScalar where
  scalar_as_bytes : List ℕ

/-- `From<Scalar> for SerializableRistrettoScalar`. -/
def scalarToSerializable (s : Zq) : SerializableRistrettoScalar :=
  ⟨leBytesOfNat32 s.val⟩

/-- `From<SerializableRistrettoScalar> for Scalar`. -/
def scalarFromSerializable (s : SerializableRistrettoScalar) : Zq :=
  scalarFromBytesModOrder s.scalar_as_bytes

/-- `SerializableRistrettoPoint` from `src/amf/codec.rs`. -/
structure SerializableRistrettoPoint where
  point_as_bytes : List ℕ

/-- `From<RistrettoPoint> for SerializableRistrettoPoint`. -/
def pointToSerializable (compress : Pt → List ℕ) (P : Pt) :
    SerializableRistrettoPoint :=
  ⟨compress P⟩

/-- `From<SerializableRistrettoPoint> for RistrettoPoint`:
`CompressedRistretto::decompress().unwrap()`.  The source `unwrap`s the
`Option`; `Option.getD default` stands in for the unwrap (on the round-trip
inputs of interest decompression always succeeds). -/
def pointFromSerializable (decompress : List ℕ → Option Pt)
    (s : SerializableRistrettoPoint) : Pt :=
  (decompress s.point_as_bytes).getD default

/-- `SerializableAMFPublicKey` from `src/amf/codec.rs`. -/
structure SerializableAMFPublicKey where
  role : AMFRole
  public_key : SerializableRistrettoPoint

/-- `From<AMFPublicKey> for SerializableAMFPublicKey`. -/
def publicKeyToSerializable (compress : Pt → List ℕ) (pk : AMFPublicKey) :
    SerializableAMFPublicKey :=
  ⟨pk.role, pointToSerializable compress pk.public_key⟩

/-- `From<SerializableAMFPublicKey> for AMFPublicKey`. -/
def publicKeyFromSerializable (decompress : List ℕ → Option Pt)
    (s : SerializableAMFPublicKey) : AMFPublicKey :=
  ⟨s.role, pointFromSerializable decompress s.public_key⟩

/-- `SerializableAMFSecretKey` from `src/amf/codec.rs`. -/
structure SerializableAMFSecretKey where
  role : AMFRole
  secret_key : SerializableRistrettoScalar

/-- `From<AMFSecretKey> for SerializableAMFSecretKey`. -/
def secretKeyToSerializable (sk : AMFSecretKey) : SerializableAMFSecretKey :=
  ⟨sk.role, scalarToSerializable sk.secret_key⟩

/-- `From<SerializableAMFSecretKey> for AMFSecretKey`. -/
def secretKeyFromSerializable (s : SerializableAMFSecretKey) : AMFSecretKey :=
  ⟨s.role, scalarFromSerializable s.secret_key⟩

/-- `SerializableChaumPedersenProverCommitment` from `src/amf/codec.rs`. -/
structure SerializableChaumPedersenProverCommitment where
  v_t : SerializableRistrettoPoint
  w_t : SerializableRistrettoPoint

/-- `From<ChaumPedersenProverCommitment> for
`SerializableChaumPedersenProverCommitment`. -/
def cpCommitmentToSerializable (compress : Pt → List ℕ)
    (t : ChaumPedersenProverCommitment) :
    SerializableChaumPedersenProverCommitment :=
  ⟨pointToSerializable compress t.v_t, pointToSerializable compress t.w_t⟩

/-- `From<SerializableChaumPedersenProverCommitment> for
`ChaumPedersenProverCommitment`. -/
def cpCommitmentFromSerializable (decompress : List ℕ → Option Pt)
    (s : SerializableChaumPedersenProverCommitment) :
    ChaumPedersenProverCommitment :=
  ⟨pointFromSerializable decompress s.v_t,
    pointFromSerializable decompress s.w_t⟩

/-- `SerializableOrProverResponse` from `src/amf/codec.rs`. -/
structure SerializableOrProverResponse where
  c_0 : SerializableRistrettoScalar
  z_0 : SerializableRistrettoScalar
  z_1 : SerializableRistrettoScalar

/-- `From<OrProverResponse<Scalar, Scalar>> for SerializableOrProverResponse`. -/
def orResponseToSerializable (r : OrProverResponse Zq Zq) :
    SerializableOrProverResponse :=
  ⟨scalarToSerializable r.c_0, scalarToSerializable r.z_0,
    scalarToSerializable r.z_1⟩

/-- `From<SerializableOrProverResponse> for OrProverResponse<Scalar, Scalar>`. -/
def orResponseFromSerializable (s : SerializableOrProverResponse) :
    OrProverResponse Zq Zq :=
  ⟨scalarFromSerializable s.c_0, scalarFromSerializable s.z_0,
    scalarFromSerializable s.z_1⟩

/-- `SerializableAMFInternalSignature` from `src/amf/codec.rs`. -/
structure SerializableAMFInternalSignature where
  or_prover_commitment_0 :
    SerializableRistrettoPoint × SerializableRistrettoPoint
  or_prover_commitment_1 :
    SerializableChaumPedersenProverCommitment × SerializableRistrettoPoint
  or_prover_response_0 : SerializableOrProverResponse
  or_prover_response_1 : SerializableOrProverResponse

/-- `From<AMFInternalSignature> for SerializableAMFInternalSignature`. -/
def internalSignatureToSerializable (compress : Pt → List ℕ)
    (sig : AMFInternalSignature) : SerializableAMFInternalSignature :=
  ⟨(pointToSerializable compress sig.prover_commitment.1.1,
      pointToSerializable compress sig.prover_commitment.1.2),
    (cpCommitmentToSerializable compress sig.prover_commitment.2.1,
      pointToSerializable compress sig.prover_commitment.2.2),
    orResponseToSerializable sig.prover_response.1,
    orResponseToSerializable sig.prover_response.2⟩

/-- `From<SerializableAMFInternalSignature> for AMFInternalSignature`. -/
def internalSignatureFromSerializable (decompress : List ℕ → Option Pt)
    (s : SerializableAMFInternalSignature) : AMFInternalSignature :=
  ⟨((pointFromSerializable decompress s.or_prover_commitment_0.1,
      pointFromSerializable decompress s.or_prover_commitment_0.2),
    (cpCommitmentFromSerializable decompress s.or_prover_commitment_1.1,
      pointFromSerializable decompress s.or_prover_commitment_1.2)),
    (orResponseFromSerializable s.or_prover_response_0,
      orResponseFromSerializable s.or_prover_response_1)⟩

/-- `SerializableAMFSignature` from `src/amf/codec.rs`. -/
structure SerializableAMFSignature where
  pi : SerializableAMFInternalSignature
  J : SerializableRistrettoPoint
  R : SerializableRistrettoPoint
  E_J : SerializableRistrettoPoint
  E_R : SerializableRistrettoPoint

/-- `From<AMFSignature> for SerializableAMFSignature`. -/
def signatureToSerializable (compress : Pt → List ℕ) (σ : AMFSignature) :
    SerializableAMFSignature :=
  ⟨internalSignatureToSerializable compress σ.pi,
    pointToSerializable compress σ.J, pointToSerializable compress σ.R,
    pointToSerializable compress σ.E_J, pointToSerializable compress σ.E_R⟩

/-- `From<SerializableAMFSignature> for AMFSignature`. -/
def signatureFromSerializable (decompress : List ℕ → Option Pt)
    (s : SerializableAMFSignature) : AMFSignature :=
  ⟨internalSignatureFromSerializable decompress s.pi,
    pointFromSerializable decompress s.J,
    pointFromSerializable decompress s.R,
    pointFromSerializable decompress s.E_J,
    pointFromSerializable decompress s.E_R⟩

/-- Modelled from the spec: a scalar decoder as §4.J describes it
("Decoding must reject … any scalar ≥ q"): it surfaces an error on a
non-canonical encoding instead of reducing (the code's
`Scalar::from_bytes_mod_order` never errors); used only to compare against
the embedded code. -/
def scalarDecodeRejectingSpec (bytes : List ℕ) : Option Zq :=
  if natFromLeBytes bytes < q then
    some ((natFromLeBytes bytes : ℕ) : Zq)
  else
    none

/-- Modelled from the spec: the OR verifier's check as the specification
describes it, with the second branch's local challenge reconstructed
subtractively as `c₁ = c − c₀` (the code under `src/pok/or_proof.rs`
instead computes `c₁ = c₀ + c`); used only to compare against the embedded
code. -/
def orVerifySubtractiveSpec {W0 C0 S0 R0 W1 C1 S1 R1 : Type}
    (ch0 : SigmaChild W0 C0 S0 R0) (ch1 : SigmaChild W1 C1 S1 R1)
    (prover_commitment : C0 × C1) (random_challenge : Zq)
    (resp : OrProverResponse R0 R1) : Bool :=
  let c_1 := random_challenge - resp.c_0
  ch0.check prover_commitment.1 resp.c_0 resp.z_0 &&
    ch1.check prover_commitment.2 c_1 resp.z_1

/-!
## Helper lemmas
-/

/-- Honest Schnorr transcripts verify: completeness of the atomic protocol. -/
theorem schnorr_commit_respond_check (w per_verifier_secret c : Zq) :
    (schnorrChild (smul w gPt)).check
      ((schnorrChild (smul w gPt)).commit per_verifier_secret w).1 c
      ((schnorrChild (smul w gPt)).respond
        ((schnorrChild (smul w gPt)).commit per_verifier_secret w).2 c) = true := by
  simp only [schnorrChild, smul, padd, gPt, decide_eq_true_eq, Pt.mk.injEq]
  ring

/-- Schnorr simulated transcripts verify, for any statement point. -/
theorem schnorr_simulate_check (u : Pt) (z c : Zq) :
    (schnorrChild u).check ((schnorrChild u).simulate z c).1 c
      ((schnorrChild u).simulate z c).2 = true := by
  simp only [schnorrChild, smul, padd, psub, gPt, decide_eq_true_eq, Pt.mk.injEq]
  ring

/-- Honest Chaum–Pedersen transcripts verify, for a witness valid for the
DDH statement `(u, w·g, w·u)`. -/
theorem cp_commit_respond_check (u : Pt) (w per_verifier_secret c : Zq) :
    (cpChild ⟨u, smul w gPt, smul w u⟩).check
      ((cpChild ⟨u, smul w gPt, smul w u⟩).commit per_verifier_secret w).1 c
      ((cpChild ⟨u, smul w gPt, smul w u⟩).respond
        ((cpChild ⟨u, smul w gPt, smul w u⟩).commit per_verifier_secret w).2 c)
      = true := by
  simp only [cpChild, smul, padd, gPt, Bool.and_eq_true, decide_eq_true_eq,
    Pt.mk.injEq]
  constructor <;> ring

/-- Chaum–Pedersen simulated transcripts verify, for any DDH statement. -/
theorem cp_simulate_check (stmt : ChaumPedersenWitnessStatement) (z c : Zq) :
    (cpChild stmt).check ((cpChild stmt).simulate z c).1 c
      ((cpChild stmt).simulate z c).2 = true := by
  simp only [cpChild, smul, padd, psub, gPt, Bool.and_eq_true,
    decide_eq_true_eq, Pt.mk.injEq]
  constructor <;> ring

/-- OR completeness, branch 0: if child 0's honest transcript at the stored
randomness checks for every challenge and child 1's simulated transcript at
the stored simulated challenge checks, then the OR transcript generated with
a `b = false` witness checks. -/
theorem orComplete_b0 {W0 C0 S0 R0 W1 C1 S1 R1 : Type}
    [Inhabited W0] [Inhabited W1] [Inhabited S0] [Inhabited S1]
    [Inhabited R0] [Inhabited R1]
    (ch0 : SigmaChild W0 C0 S0 R0) (ch1 : SigmaChild W1 C1 S1 R1)
    (rnd : OrCommitRnd) (c : Zq) (w0 : W0)
    (h0 : ∀ c' : Zq, ch0.check (ch0.commit rnd.r_commit w0).1 c'
      (ch0.respond (ch0.commit rnd.r_commit w0).2 c') = true)
    (h1 : ch1.check (ch1.simulate rnd.r_sim rnd.r_chal).1 rnd.r_chal
      (ch1.simulate rnd.r_sim rnd.r_chal).2 = true) :
    orVerifyResponseToChallenge ch0 ch1
      (orGenerateCommitment ch0 ch1 rnd ⟨false, some w0, none⟩).1 c
      (orGenerateResponseToChallenge ch0 ch1
        (orGenerateCommitment ch0 ch1 rnd ⟨false, some w0, none⟩).2 c)
      = true := by
  simp only [orGenerateCommitment, orGenerateResponseToChallenge,
    orVerifyResponseToChallenge, Bool.not_false, if_true, Option.getD_some,
    Bool.and_eq_true]
  refine ⟨h0 _, ?_⟩
  simpa [sub_add_cancel] using h1

/-- OR completeness, branch 1: symmetric to `orComplete_b0`. -/
theorem orComplete_b1 {W0 C0 S0 R0 W1 C1 S1 R1 : Type}
    [Inhabited W0] [Inhabited W1] [Inhabited S0] [Inhabited S1]
    [Inhabited R0] [Inhabited R1]
    (ch0 : SigmaChild W0 C0 S0 R0) (ch1 : SigmaChild W1 C1 S1 R1)
    (rnd : OrCommitRnd) (c : Zq) (w1 : W1)
    (h0 : ch0.check (ch0.simulate rnd.r_sim rnd.r_chal).1 rnd.r_chal
      (ch0.simulate rnd.r_sim rnd.r_chal).2 = true)
    (h1 : ∀ c' : Zq, ch1.check (ch1.commit rnd.r_commit w1).1 c'
      (ch1.respond (ch1.commit rnd.r_commit w1).2 c') = true) :
    orVerifyResponseToChallenge ch0 ch1
      (orGenerateCommitment ch0 ch1 rnd ⟨true, none, some w1⟩).1 c
      (orGenerateResponseToChallenge ch0 ch1
        (orGenerateCommitment ch0 ch1 rnd ⟨true, none, some w1⟩).2 c)
      = true := by
  simp only [orGenerateCommitment, orGenerateResponseToChallenge,
    orVerifyResponseToChallenge, Bool.not_true, if_false, Option.getD_some,
    Bool.and_eq_true, Bool.false_eq_true]
  exact ⟨h0, h1 _⟩

/-- OR simulator soundness, generically: if both children's simulators
produce accepting transcripts at every challenge, so does the OR
combinator's. -/
theorem orSimulate_check {W0 C0 S0 R0 W1 C1 S1 R1 : Type}
    (ch0 : SigmaChild W0 C0 S0 R0) (ch1 : SigmaChild W1 C1 S1 R1)
    (rnd_c0 rnd0 rnd1 c : Zq)
    (h0 : ∀ c' : Zq, ch0.check (ch0.simulate rnd0 c').1 c'
      (ch0.simulate rnd0 c').2 = true)
    (h1 : ∀ c' : Zq, ch1.check (ch1.simulate rnd1 c').1 c'
      (ch1.simulate rnd1 c').2 = true) :
    orVerifyResponseToChallenge ch0 ch1
      (orSimulateProverResponses ch0 ch1 rnd_c0 rnd0 rnd1 c).1 c
      (orSimulateProverResponses ch0 ch1 rnd_c0 rnd0 rnd1 c).2 = true := by
  simp only [orSimulateProverResponses, orVerifyResponseToChallenge,
    Bool.and_eq_true]
  exact ⟨h0 _, h1 _⟩

/-!
## Claims
-/

/-- C9 (counterexample): `keygen`'s randomly drawn scalar may be `0`
(`Scalar::random` does not exclude zero and `keygen` performs no check), so
the output of `keygen AMFRole.Sender` at randomness `0` violates the claimed
conjunction: its secret scalar is not nonzero. -/
theorem keygen_zero_scalar_counterexample :
    ¬ ((keygen AMFRole.Sender 0).1.role = AMFRole.Sender ∧
      (keygen AMFRole.Sender 0).2.role = AMFRole.Sender ∧
      (keygen AMFRole.Sender 0).1.public_key =
        smul (keygen AMFRole.Sender 0).2.secret_key gPt ∧
      (keygen AMFRole.Sender 0).2.secret_key ≠ 0) := by
  intro h
  exact h.2.2.2 rfl

/-- C9 (amended): for every output of `keygen`, both role tags equal the
requested role and the public key point is `sk · g`; the secret scalar is
drawn uniformly from 𝔽q and may be zero. -/
theorem keygen_role_and_key_invariant (role : AMFRole) (sk : Zq) :
    (keygen role sk).1.role = role ∧
    (keygen role sk).2.role = role ∧
    (keygen role sk).1.public_key = smul (keygen role sk).2.secret_key gPt := by
  exact ⟨rfl, rfl, rfl⟩

/-- C10: the `recipient_public_key` argument of `verify` and of `judge` does
not influence the result: for all other arguments held fixed, any two values
of that argument yield equal return values. -/
theorem verify_judge_ignore_recipient_public_key
    (compress : Pt → List ℕ) (sha512 : List ℕ → ℕ)
    (sk : AMFSecretKey) (pkS pkR pkR' pkJ : AMFPublicKey)
    (m : List ℕ) (σ : AMFSignature) :
    verify compress sha512 sk pkS pkR pkJ m σ =
      verify compress sha512 sk pkS pkR' pkJ m σ ∧
    judge compress sha512 sk pkS pkR pkJ m σ =
      judge compress sha512 sk pkS pkR' pkJ m σ := by
  exact ⟨rfl, rfl⟩

/-- C2 (counterexample): the claim's subtractive reconstruction
`c₁ = c − c₀` does not describe the code.  On a concrete OR(Schnorr, Schnorr)
instance and transcript, the embedded verifier
(`OrVerifier::verify_response_to_challenge`) accepts, while the check the
claim describes (`orVerifySubtractiveSpec`) rejects the same transcript. -/
theorem or_subtractive_split_counterexample :
    orVerifyResponseToChallenge (schnorrChild ⟨2⟩) (schnorrChild ⟨3⟩)
      (⟨5⟩, ⟨-7⟩) 5 ⟨1, 7, 11⟩ = true ∧
    orVerifySubtractiveSpec (schnorrChild ⟨2⟩) (schnorrChild ⟨3⟩)
      (⟨5⟩, ⟨-7⟩) 5 ⟨1, 7, 11⟩ = false := by
  constructor <;> decide

/-- C2 (amended): the OR combinator's challenge splitting is additive.  The
verifier reconstructs the second branch's local challenge as `c₁ = c₀ + c`
and accepts iff child 0 accepts `(t₀, c₀, z₀)` and child 1 accepts
`(t₁, c₀ + c, z₁)`.  Correspondingly the prover holding a witness for branch
`b = 0` derives the real branch's local challenge as
`c₀ = c₁ − c` from the simulated branch's stored challenge `c₁` (so that
`c₀ + c` equals the stored `c₁`), and the prover for branch `b = 1` answers
the real branch at `c₁ = c₀ + c` where `c₀` is the stored simulated
challenge it emits. -/
theorem or_challenge_splitting_additive
    {W0 C0 S0 R0 W1 C1 S1 R1 : Type}
    [Inhabited W0] [Inhabited W1] [Inhabited S0] [Inhabited S1]
    [Inhabited R0] [Inhabited R1]
    (ch0 : SigmaChild W0 C0 S0 R0) (ch1 : SigmaChild W1 C1 S1 R1)
    (t : C0 × C1) (c : Zq) (resp : OrProverResponse R0 R1)
    (rnd : OrCommitRnd) (w0 : W0) (w1 : W1) :
    orVerifyResponseToChallenge ch0 ch1 t c resp =
      (ch0.check t.1 resp.c_0 resp.z_0 &&
        ch1.check t.2 (resp.c_0 + c) resp.z_1) ∧
    (orGenerateResponseToChallenge ch0 ch1
        (orGenerateCommitment ch0 ch1 rnd ⟨false, some w0, none⟩).2 c).c_0 + c
      = rnd.r_chal ∧
    (orGenerateResponseToChallenge ch0 ch1
        (orGenerateCommitment ch0 ch1 rnd ⟨true, none, some w1⟩).2 c).c_0
      = rnd.r_chal ∧
    (orGenerateResponseToChallenge ch0 ch1
        (orGenerateCommitment ch0 ch1 rnd ⟨true, none, some w1⟩).2 c).z_1
      = ch1.respond (ch1.commit rnd.r_commit w1).2 (rnd.r_chal + c) := by
  refine ⟨rfl, ?_, ?_, ?_⟩
  · simp [orGenerateCommitment, orGenerateResponseToChallenge, sub_add_cancel]
  · simp [orGenerateCommitment, orGenerateResponseToChallenge]
  · simp [orGenerateCommitment, orGenerateResponseToChallenge]

/-- C6 (counterexample): `verify` does not check role tags.  On a concrete
honest franking instance, passing a secret key tagged `Judge` (holding the
recipient's scalar) in the `sk_R` slot of `verify` is not rejected: `verify`
returns `true`. -/
theorem verify_ignores_role_tag_counterexample :
    verify (fun _ => []) (fun _ => 0)
      ⟨AMFRole.Judge, 3⟩
      ⟨AMFRole.Sender, smul 2 gPt⟩ ⟨AMFRole.Recipient, smul 3 gPt⟩
      ⟨AMFRole.Judge, smul 5 gPt⟩ [104]
      (frank (fun _ => []) (fun _ => 0)
        ⟨AMFRole.Sender, 2⟩
        ⟨AMFRole.Sender, smul 2 gPt⟩ ⟨AMFRole.Recipient, smul 3 gPt⟩
        ⟨AMFRole.Judge, smul 5 gPt⟩
        7 11 (⟨13, 17, 19⟩, ⟨23, 29, 31⟩) [104]) = true := by
  decide

/-- C6 (amended): `frank`, `verify` and `judge` never inspect the role tags
of the keys they receive; the result is determined entirely by the scalar
and point values, so re-tagging every key with arbitrary roles leaves the
outputs unchanged (no rejection on mismatch ever occurs). -/
theorem franking_ignores_role_tags
    (compress : Pt → List ℕ) (sha512 : List ℕ → ℕ)
    (r1 r1' r2 r2' r3 r3' r4 r4' : AMFRole)
    (sk : Zq) (PS PR PJ : Pt) (alpha beta : Zq)
    (rnd : OrCommitRnd × OrCommitRnd) (m : List ℕ) (σ : AMFSignature) :
    frank compress sha512 ⟨r1, sk⟩ ⟨r2, PS⟩ ⟨r3, PR⟩ ⟨r4, PJ⟩
        alpha beta rnd m =
      frank compress sha512 ⟨r1', sk⟩ ⟨r2', PS⟩ ⟨r3', PR⟩ ⟨r4', PJ⟩
        alpha beta rnd m ∧
    verify compress sha512 ⟨r1, sk⟩ ⟨r2, PS⟩ ⟨r3, PR⟩ ⟨r4, PJ⟩ m σ =
      verify compress sha512 ⟨r1', sk⟩ ⟨r2', PS⟩ ⟨r3', PR⟩ ⟨r4', PJ⟩ m σ ∧
    judge compress sha512 ⟨r1, sk⟩ ⟨r2, PS⟩ ⟨r3, PR⟩ ⟨r4, PJ⟩ m σ =
      judge compress sha512 ⟨r1', sk⟩ ⟨r2', PS⟩ ⟨r3', PR⟩ ⟨r4', PJ⟩ m σ := by
  exact ⟨rfl, rfl, rfl⟩

/-- C3: OR completeness holds for both branches, for both OR instantiations
the repository constructs (Schnorr ∨ Schnorr and Chaum–Pedersen ∨ Schnorr):
for every challenge `c`, commit randomness and witness scalar, the honest
prover's `generate_commitment` followed by `generate_response_to_challenge c`
yields a transcript the OR verifier's `verify_response_to_challenge`
accepts — with `b = 0` (valid witness on the left, right branch simulated
against an arbitrary statement) and with `b = 1` (left branch simulated,
valid witness on the right). -/
theorem or_completeness_both_branches
    (w0 w1 wcp : Zq) (U0 U1 : Pt) (cpu : Pt)
    (cpstmt : ChaumPedersenWitnessStatement) (rnd : OrCommitRnd) (c : Zq) :
    orVerifyResponseToChallenge (schnorrChild (smul w0 gPt)) (schnorrChild U1)
      (orGenerateCommitment (schnorrChild (smul w0 gPt)) (schnorrChild U1)
        rnd ⟨false, some w0, none⟩).1 c
      (orGenerateResponseToChallenge (schnorrChild (smul w0 gPt))
        (schnorrChild U1)
        (orGenerateCommitment (schnorrChild (smul w0 gPt)) (schnorrChild U1)
          rnd ⟨false, some w0, none⟩).2 c) = true ∧
    orVerifyResponseToChallenge (schnorrChild U0) (schnorrChild (smul w1 gPt))
      (orGenerateCommitment (schnorrChild U0) (schnorrChild (smul w1 gPt))
        rnd ⟨true, none, some w1⟩).1 c
      (orGenerateResponseToChallenge (schnorrChild U0)
        (schnorrChild (smul w1 gPt))
        (orGenerateCommitment (schnorrChild U0) (schnorrChild (smul w1 gPt))
          rnd ⟨true, none, some w1⟩).2 c) = true ∧
    orVerifyResponseToChallenge (cpChild ⟨cpu, smul wcp gPt, smul wcp cpu⟩)
      (schnorrChild U1)
      (orGenerateCommitment (cpChild ⟨cpu, smul wcp gPt, smul wcp cpu⟩)
        (schnorrChild U1) rnd ⟨false, some wcp, none⟩).1 c
      (orGenerateResponseToChallenge
        (cpChild ⟨cpu, smul wcp gPt, smul wcp cpu⟩) (schnorrChild U1)
        (orGenerateCommitment (cpChild ⟨cpu, smul wcp gPt, smul wcp cpu⟩)
          (schnorrChild U1) rnd ⟨false, some wcp, none⟩).2 c) = true ∧
    orVerifyResponseToChallenge (cpChild cpstmt) (schnorrChild (smul w1 gPt))
      (orGenerateCommitment (cpChild cpstmt) (schnorrChild (smul w1 gPt))
        rnd ⟨true, none, some w1⟩).1 c
      (orGenerateResponseToChallenge (cpChild cpstmt)
        (schnorrChild (smul w1 gPt))
        (orGenerateCommitment (cpChild cpstmt) (schnorrChild (smul w1 gPt))
          rnd ⟨true, none, some w1⟩).2 c) = true := by
  refine ⟨?_, ?_, ?_, ?_⟩
  · exact orComplete_b0 _ _ rnd c w0
      (fun c' => schnorr_commit_respond_check w0 rnd.r_commit c')
      (schnorr_simulate_check U1 rnd.r_sim rnd.r_chal)
  · exact orComplete_b1 _ _ rnd c w1
      (schnorr_simulate_check U0 rnd.r_sim rnd.r_chal)
      (fun c' => schnorr_commit_respond_check w1 rnd.r_commit c')
  · exact orComplete_b0 _ _ rnd c wcp
      (fun c' => cp_commit_respond_check cpu wcp rnd.r_commit c')
      (schnorr_simulate_check U1 rnd.r_sim rnd.r_chal)
  · exact orComplete_b1 _ _ rnd c w1
      (cp_simulate_check cpstmt rnd.r_sim rnd.r_chal)
      (fun c' => schnorr_commit_respond_check w1 rnd.r_commit c')

/-- C5: simulator soundness for every protocol of the repository: for every
statement, simulator randomness and challenge `c`,
`simulate_prover_responses c` produces `(t, z)` that
`verify_response_to_challenge (t, c, z)` accepts — for Schnorr,
Chaum–Pedersen, the two OR instantiations (Schnorr ∨ Schnorr and
Chaum–Pedersen ∨ Schnorr), and the AND combinator over those two ORs (the
AMF SPoK tree). -/
theorem simulator_soundness
    (u : Pt) (stmt : ChaumPedersenWitnessStatement) (s : AMFStatement)
    (z c rc0 rz0 rz1 rc0' rz0' rz1' : Zq) :
    (schnorrChild u).check ((schnorrChild u).simulate z c).1 c
      ((schnorrChild u).simulate z c).2 = true ∧
    (cpChild stmt).check ((cpChild stmt).simulate z c).1 c
      ((cpChild stmt).simulate z c).2 = true ∧
    orVerifyResponseToChallenge (schnorrChild s.sender_public_key)
      (schnorrChild s.J)
      (orSimulateProverResponses (schnorrChild s.sender_public_key)
        (schnorrChild s.J) rc0 rz0 rz1 c).1 c
      (orSimulateProverResponses (schnorrChild s.sender_public_key)
        (schnorrChild s.J) rc0 rz0 rz1 c).2 = true ∧
    orVerifyResponseToChallenge (cpChild (amfCpStatement s))
      (schnorrChild s.R)
      (orSimulateProverResponses (cpChild (amfCpStatement s))
        (schnorrChild s.R) rc0' rz0' rz1' c).1 c
      (orSimulateProverResponses (cpChild (amfCpStatement s))
        (schnorrChild s.R) rc0' rz0' rz1' c).2 = true ∧
    amfVerifyResponseToChallenge s
      (amfSimulateProverResponses s ((rc0, rz0, rz1), (rc0', rz0', rz1')) c).1
      c
      (amfSimulateProverResponses s ((rc0, rz0, rz1), (rc0', rz0', rz1')) c).2
      = true := by
  refine ⟨schnorr_simulate_check u z c, cp_simulate_check stmt z c, ?_, ?_, ?_⟩
  · exact orSimulate_check _ _ rc0 rz0 rz1 c
      (fun c' => schnorr_simulate_check _ rz0 c')
      (fun c' => schnorr_simulate_check _ rz1 c')
  · exact orSimulate_check _ _ rc0' rz0' rz1' c
      (fun c' => cp_simulate_check _ rz0' c')
      (fun c' => schnorr_simulate_check _ rz1' c')
  · simp only [amfSimulateProverResponses, amfVerifyResponseToChallenge,
      andSimulateProverResponses, andVerifyResponseToChallenge,
      Bool.and_eq_true]
    constructor
    · exact orSimulate_check _ _ rc0 rz0 rz1 c
        (fun c' => schnorr_simulate_check _ rz0 c')
        (fun c' => schnorr_simulate_check _ rz1 c')
    · exact orSimulate_check _ _ rc0' rz0' rz1' c
        (fun c' => cp_simulate_check _ rz0' c')
        (fun c' => schnorr_simulate_check _ rz1' c')

/-- C1: AMF completeness.  For every sender, recipient and judge key pair
produced by `keygen` (at arbitrary key randomness), every message, and every
randomness used inside `frank`, the signature
`σ = frank(sk_S, pk_S, pk_R, pk_J, m)` satisfies
`verify(sk_R, pk_S, pk_R, pk_J, m, σ) = true` and
`judge(sk_J, pk_S, pk_R, pk_J, m, σ) = true`. -/
theorem amf_completeness
    (compress : Pt → List ℕ) (sha512 : List ℕ → ℕ)
    (skS skR skJ alpha beta : Zq) (rnd : OrCommitRnd × OrCommitRnd)
    (m : List ℕ) :
    verify compress sha512 (keygen AMFRole.Recipient skR).2
      (keygen AMFRole.Sender skS).1 (keygen AMFRole.Recipient skR).1
      (keygen AMFRole.Judge skJ).1 m
      (frank compress sha512 (keygen AMFRole.Sender skS).2
        (keygen AMFRole.Sender skS).1 (keygen AMFRole.Recipient skR).1
        (keygen AMFRole.Judge skJ).1 alpha beta rnd m) = true ∧
    judge compress sha512 (keygen AMFRole.Judge skJ).2
      (keygen AMFRole.Sender skS).1 (keygen AMFRole.Recipient skR).1
      (keygen AMFRole.Judge skJ).1 m
      (frank compress sha512 (keygen AMFRole.Sender skS).2
        (keygen AMFRole.Sender skS).1 (keygen AMFRole.Recipient skR).1
        (keygen AMFRole.Judge skJ).1 alpha beta rnd m) = true := by
  constructor <;>
  · simp only [keygen, verify, judge, frank, amfSPoKSign, amfSPoKVerify,
      fsSign, fsVerify, Bool.and_eq_true, decide_eq_true_eq]
    constructor
    · simp only [smul, gPt, Pt.mk.injEq]
      ring
    · simp only [amfGenerateCommitment, amfGenerateResponseToChallenge,
        amfVerifyResponseToChallenge, andGenerateCommitment,
        andGenerateResponseToChallenge, andVerifyResponseToChallenge,
        Bool.and_eq_true]
      constructor
      · exact orComplete_b0 _ _ rnd.1 _ skS
          (fun c' => schnorr_commit_respond_check skS rnd.1.r_commit c')
          (schnorr_simulate_check _ rnd.1.r_sim rnd.1.r_chal)
      · exact orComplete_b0 _ _ rnd.2 _ alpha
          (fun c' => cp_commit_respond_check _ alpha rnd.2.r_commit c')
          (schnorr_simulate_check _ rnd.2.r_sim rnd.2.r_chal)

/-- C4: both when signing and when verifying, the Fiat–Shamir challenge is
`SHA-512(message ‖ 0x7C7C ‖ serialize(commitment))` reduced modulo `q`
(the cast of the digest into `Zq`), where `0x7C7C = [124, 124]` is the two
ASCII pipe characters and the AMF commitment serialization is the
concatenation of the five compressed points
`t_s0 ‖ t_s1 ‖ v_t ‖ w_t ‖ t_s3`.  The verifier feeds that challenge to the
composed check, and the signer responds to exactly that challenge over the
commitment it just generated. -/
theorem fiat_shamir_challenge_domain
    (compress : Pt → List ℕ) (sha512 : List ℕ → ℕ) (s : AMFStatement)
    (m : List ℕ) (σ : AMFInternalSignature) (rnd : OrCommitRnd × OrCommitRnd)
    (wit : AMFWitness) :
    amfSPoKVerify compress sha512 s m σ =
      amfVerifyResponseToChallenge s σ.prover_commitment
        ((sha512 (m ++ [124, 124] ++ compress σ.prover_commitment.1.1 ++
            compress σ.prover_commitment.1.2 ++
            compress σ.prover_commitment.2.1.v_t ++
            compress σ.prover_commitment.2.1.w_t ++
            compress σ.prover_commitment.2.2) : ℕ) : Zq)
        σ.prover_response ∧
    amfSPoKSign compress sha512 s rnd wit m =
      ⟨(amfGenerateCommitment s rnd wit).1,
        amfGenerateResponseToChallenge s (amfGenerateCommitment s rnd wit).2
          ((sha512 (m ++ [124, 124] ++
              compress (amfGenerateCommitment s rnd wit).1.1.1 ++
              compress (amfGenerateCommitment s rnd wit).1.1.2 ++
              compress (amfGenerateCommitment s rnd wit).1.2.1.v_t ++
              compress (amfGenerateCommitment s rnd wit).1.2.1.w_t ++
              compress (amfGenerateCommitment s rnd wit).1.2.2) : ℕ) : Zq)⟩ := by
  constructor <;>
    simp [amfSPoKVerify, amfSPoKSign, fsVerify, fsSign,
      hashMessageAndCommitmentToScalar, amfSerializeCommitment,
      pairSerializeCommitment, schnorrSerializeCommitment,
      cpSerializeCommitment, List.append_assoc]

instance : NeZero q := ⟨by decide⟩

/-- `Nat.ofDigits` of a run of zero digits is zero. -/
theorem ofDigits_replicate_zero (b k : ℕ) :
    Nat.ofDigits b (List.replicate k 0) = 0 := by
  induction k with
  | zero => simp [Nat.ofDigits]
  | succ k ih => simp [List.replicate_succ, Nat.ofDigits_cons, ih]

/-- The canonical 32-byte little-endian encoding decodes to the number. -/
theorem natFromLeBytes_leBytesOfNat32 (n : ℕ) :
    natFromLeBytes (leBytesOfNat32 n) = n := by
  unfold natFromLeBytes leBytesOfNat32
  rw [Nat.ofDigits_append, Nat.ofDigits_digits, ofDigits_replicate_zero]
  ring

/-- Scalar encode–decode round trip: the canonical encoding of a reduced
scalar decodes back to it. -/
theorem scalar_round_trip (s : Zq) :
    scalarFromSerializable (scalarToSerializable s) = s := by
  unfold scalarFromSerializable scalarToSerializable scalarFromBytesModOrder
  rw [natFromLeBytes_leBytesOfNat32]
  exact ZMod.natCast_rightInverse s

/-- C7 (counterexample): the 32-byte little-endian encoding of the group
order `q` itself (value `≥ q`, hence non-canonical) is not rejected: the
code's scalar decoder (`Scalar::from_bytes_mod_order`) silently reduces it
to `0`, while the decoder the claim describes surfaces an error. -/
theorem scalar_ge_q_decode_counterexample :
    scalarFromBytesModOrder
      [237, 211, 245, 92, 26, 99, 18, 88, 214, 156, 247, 162, 222, 249, 222,
        20, 0, 0, 0, 0, 0, 0, 0, 0, 0, 0, 0, 0, 0, 0, 0, 16] = 0 ∧
    scalarDecodeRejectingSpec
      [237, 211, 245, 92, 26, 99, 18, 88, 214, 156, 247, 162, 222, 249, 222,
        20, 0, 0, 0, 0, 0, 0, 0, 0, 0, 0, 0, 0, 0, 0, 0, 16] = none := by
  constructor <;> decide

/-- C7 (amended): the scalar decoder never surfaces an error: it reduces the
little-endian value modulo `q`, so every 32-byte string decodes (values
`≥ q` are silently reduced, and in particular the encoding of `q` collides
with the all-zero encoding); the point decoder unwraps the external
decompression rather than returning an error to the caller. -/
theorem scalar_decode_silent_reduction :
    (∀ bytes : List ℕ,
      scalarFromBytesModOrder bytes = ((natFromLeBytes bytes % q : ℕ) : Zq)) ∧
    scalarFromBytesModOrder
      [237, 211, 245, 92, 26, 99, 18, 88, 214, 156, 247, 162, 222, 249, 222,
        20, 0, 0, 0, 0, 0, 0, 0, 0, 0, 0, 0, 0, 0, 0, 0, 16] =
      scalarFromBytesModOrder (List.replicate 32 0) := by
  constructor
  · intro bytes
    exact (ZMod.natCast_mod (natFromLeBytes bytes) q).symm
  · decide

/-- C8: encoding followed by decoding is the identity on public keys, secret
keys and AMF signatures, given the external Ristretto compression contract
(`decompress ∘ compress = some`); all scalars in the embedding are reduced,
hence canonical. -/
theorem codec_round_trip (compress : Pt → List ℕ)
    (decompress : List ℕ → Option Pt)
    (hpoint : ∀ P : Pt, decompress (compress P) = some P)
    (pk : AMFPublicKey) (sk : AMFSecretKey) (σ : AMFSignature) :
    publicKeyFromSerializable decompress
      (publicKeyToSerializable compress pk) = pk ∧
    secretKeyFromSerializable (secretKeyToSerializable sk) = sk ∧
    signatureFromSerializable decompress
      (signatureToSerializable compress σ) = σ := by
  have hp : ∀ P : Pt,
      pointFromSerializable decompress (pointToSerializable compress P) = P := by
    intro P
    simp [pointFromSerializable, pointToSerializable, hpoint]
  refine ⟨?_, ?_, ?_⟩
  · simp [publicKeyFromSerializable, publicKeyToSerializable, hp]
  · simp [secretKeyFromSerializable, secretKeyToSerializable,
      scalar_round_trip]
  · simp [signatureFromSerializable, signatureToSerializable,
      internalSignatureFromSerializable, internalSignatureToSerializable,
      cpCommitmentFromSerializable, cpCommitmentToSerializable,
      orResponseFromSerializable, orResponseToSerializable, hp,
      scalar_round_trip]

/-- C8 (witness): the round trip at concrete keys and a concrete signature,
with a concrete compression pair satisfying the contract. -/
theorem codec_round_trip_witness :
    publicKeyFromSerializable (fun b => some ⟨((b.headD 0 : ℕ) : Zq)⟩)
      (publicKeyToSerializable (fun P => [P.log.val])
        ⟨AMFRole.Sender, ⟨5⟩⟩) = ⟨AMFRole.Sender, ⟨5⟩⟩ ∧
    secretKeyFromSerializable
      (secretKeyToSerializable ⟨AMFRole.Recipient, 7⟩) =
      ⟨AMFRole.Recipient, 7⟩ ∧
    signatureFromSerializable (fun b => some ⟨((b.headD 0 : ℕ) : Zq)⟩)
      (signatureToSerializable (fun P => [P.log.val])
        ⟨⟨((⟨1⟩, ⟨2⟩), (⟨⟨3⟩, ⟨4⟩⟩, ⟨5⟩)), (⟨6, 7, 8⟩, ⟨9, 10, 11⟩)⟩,
          ⟨12⟩, ⟨13⟩, ⟨14⟩, ⟨15⟩⟩) =
      ⟨⟨((⟨1⟩, ⟨2⟩), (⟨⟨3⟩, ⟨4⟩⟩, ⟨5⟩)), (⟨6, 7, 8⟩, ⟨9, 10, 11⟩)⟩,
        ⟨12⟩, ⟨13⟩, ⟨14⟩, ⟨15⟩⟩ :=
  codec_round_trip (fun P => [P.log.val])
    (fun b => some ⟨((b.headD 0 : ℕ) : Zq)⟩)
    (fun P => by simp [ZMod.natCast_rightInverse P.log])
    ⟨AMFRole.Sender, ⟨5⟩⟩ ⟨AMFRole.Recipient, 7⟩
    ⟨⟨((⟨1⟩, ⟨2⟩), (⟨⟨3⟩, ⟨4⟩⟩, ⟨5⟩)), (⟨6, 7, 8⟩, ⟨9, 10, 11⟩)⟩,
      ⟨12⟩, ⟨13⟩, ⟨14⟩, ⟨15⟩⟩

end Amaze
